import Mathlib

/-!
Verification development for the dialog engine of the Agent_2 repository
(`app/services/agent/intentions.py`, `app/services/agent/agent.py`,
`app/services/session/session_manager.py`).

The Python code is shallowly embedded: pure functions become Lean
functions, the per-conversation mutable agent state becomes explicit
state passing, and Python exceptions become `Except` values
(`Exc.valueError` for `ValueError`, `Exc.otherError` for every other
exception class).  The external collaborators (the SQLAlchemy CRUD layer
and the language-model classifier chain) are modelled as oracles: a
`Crud` record of fallible operations and a classifier outcome value.

Unicode primitives (`unicodedata.normalize('NFD', ·)`,
`unicodedata.combining`, `str.lower`) are modelled character-wise by
concrete tables covering the characters that occur in the repository's
catalogs, keyword lists and messages (ASCII plus the Spanish accented
letters and their combining marks); every other character is treated as
a case-stable, decomposition-stable, non-combining singleton, exactly as
the real Unicode data treats it.
-/

namespace Agent2

/-! ### Character-level model of the Python string primitives -/

/-- Model of `unicodedata.combining(c) != 0` for the combining marks
reachable from the modelled decompositions (acute, grave, tilde,
diaeresis, dot above). -/
def combiningChar (c : Char) : Bool :=
  c = '́' || c = '̀' || c = '̃' || c = '̈' || c = '̇'

/-- Canonical-decomposition table of `unicodedata` for the accented
letters in use: each maps to its base letter followed by a combining
mark. -/
def nfdTable : List (Char × List Char) :=
  [ ('á', ['a', '́']), ('é', ['e', '́']), ('í', ['i', '́']),
    ('ó', ['o', '́']), ('ú', ['u', '́']), ('ü', ['u', '̈']),
    ('ñ', ['n', '̃']),
    ('Á', ['A', '́']), ('É', ['E', '́']), ('Í', ['I', '́']),
    ('Ó', ['O', '́']), ('Ú', ['U', '́']), ('Ü', ['U', '̈']),
    ('Ñ', ['N', '̃']) ]

/-- Model of the canonical decomposition `unicodedata.normalize('NFD', c)`
for one character: the Spanish accented letters decompose per
`nfdTable`; every other modelled character is decomposition-stable. -/
def nfdChar (c : Char) : List Char :=
  match nfdTable.find? (fun kv => kv.1 = c) with
  | some kv => kv.2
  | none => [c]

/-- Lower-case table of `str.lower` for the characters in use: ASCII
upper-case letters and the upper-case accented letters. -/
def lowTable : List (Char × Char) :=
  [ ('A', 'a'), ('B', 'b'), ('C', 'c'), ('D', 'd'), ('E', 'e'), ('F', 'f'),
    ('G', 'g'), ('H', 'h'), ('I', 'i'), ('J', 'j'), ('K', 'k'), ('L', 'l'),
    ('M', 'm'), ('N', 'n'), ('O', 'o'), ('P', 'p'), ('Q', 'q'), ('R', 'r'),
    ('S', 's'), ('T', 't'), ('U', 'u'), ('V', 'v'), ('W', 'w'), ('X', 'x'),
    ('Y', 'y'), ('Z', 'z'),
    ('Á', 'á'), ('É', 'é'), ('Í', 'í'), ('Ó', 'ó'), ('Ú', 'ú'),
    ('Ü', 'ü'), ('Ñ', 'ñ') ]

/-- Model of `str.lower` on one character: table characters map to
their lower-case forms; every other modelled character is unchanged. -/
def pyLowerChar (c : Char) : Char :=
  match lowTable.find? (fun kv => kv.1 = c) with
  | some kv => kv.2
  | none => c

/-- Whitespace set of Python `str.strip()` / `str.split()` (the ASCII
whitespace characters; the repository never feeds non-ASCII spaces). -/
def pyIsSpace (c : Char) : Bool :=
  c = ' ' || c = '\t' || c = '\n' || c = '\x0d' || c = '\x0b' || c = '\x0c'

/-- Concatenated per-character NFD decomposition of a character list. -/
def nfdList : List Char → List Char
  | [] => []
  | c :: cs => nfdChar c ++ nfdList cs

/-- Remove trailing characters satisfying `pyIsSpace` (right half of
Python `str.strip()`). -/
def trimRight : List Char → List Char
  | [] => []
  | c :: cs =>
    match trimRight cs with
    | [] => if pyIsSpace c then [] else [c]
    | d :: ds => c :: d :: ds

/-- Python `str.strip()` on a character list. -/
def pyStrip (l : List Char) : List Char :=
  trimRight (l.dropWhile pyIsSpace)

/-- Character-list form of `normalize_text` from
`intentions.py`: NFD decomposition, removal of combining marks,
lower-casing, stripping. -/
def normalizeList (l : List Char) : List Char :=
  pyStrip (((nfdList l).filter (fun c => !combiningChar c)).map pyLowerChar)

/-- `normalize_text` from `intentions.py` (lines 377-382). -/
def normalize_text (s : String) : String :=
  String.mk (normalizeList s.data)

/-- Python `str.lower()` on a whole string. -/
def pyLowerStr (s : String) : String :=
  String.mk (s.data.map pyLowerChar)

/-- Python `str.strip()` on a whole string. -/
def pyStripStr (s : String) : String :=
  String.mk (pyStrip s.data)

/-- Does the first list lead (start) the second? (`str.startswith`). -/
def leadMatch : List Char → List Char → Bool
  | [], _ => true
  | _ :: _, [] => false
  | p :: ps, c :: cs => p = c && leadMatch ps cs

/-- Does the first list occur contiguously inside the second?
(Python `pat in s` on strings). -/
def subMatch : List Char → List Char → Bool
  | p, [] => p.isEmpty
  | p, c :: cs => leadMatch p (c :: cs) || subMatch p cs

/-- `pat in s` for strings. -/
def strContains (s pat : String) : Bool :=
  subMatch pat.data s.data

/-- `s.startswith(pat)` for strings. -/
def strStarts (s pat : String) : Bool :=
  leadMatch pat.data s.data

/-- Python `str.split()` with no argument: split on whitespace runs,
dropping empty pieces.  The accumulator holds the current word
reversed. -/
def pySplitAux : List Char → List Char → List (List Char)
  | [], cur => if cur.isEmpty then [] else [cur.reverse]
  | c :: cs, cur =>
    if pyIsSpace c then
      if cur.isEmpty then pySplitAux cs [] else cur.reverse :: pySplitAux cs []
    else pySplitAux cs (c :: cur)

/-- Number of whitespace-separated tokens of a string
(`len(s.split())`). -/
def pySplitCount (s : String) : Nat :=
  (pySplitAux s.data []).length

/-! ### Intent data model (`intentions.py`) -/

/-- `IntentionType` enumeration (`intentions.py` lines 62-102). -/
inductive IntentionType
  | CONSULTA | REGISTRO | MODIFICACION | ELIMINACION
  | VENTA | FACTURACION | INVENTARIO | CONVERSACION
deriving DecidableEq

/-- String value of an `IntentionType` member (`str, Enum` values). -/
def IntentionType.value : IntentionType → String
  | .CONSULTA => "consulta"
  | .REGISTRO => "registro"
  | .MODIFICACION => "modificacion"
  | .ELIMINACION => "eliminacion"
  | .VENTA => "venta"
  | .FACTURACION => "facturacion"
  | IntentionType.INVENTARIO => "inventario"
  | .CONVERSACION => "conversacion"

/-- `EntityType` enumeration (`intentions.py` lines 104-141). -/
inductive EntityType
  | CLIENTE | PRODUCTO | VENTA | FACTURA | DETALLE_VENTA | ASISTENTE
deriving DecidableEq

/-- String value of an `EntityType` member. -/
def EntityType.value : EntityType → String
  | .CLIENTE => "cliente"
  | .PRODUCTO => "producto"
  | .VENTA => "venta"
  | .FACTURA => "factura"
  | .DETALLE_VENTA => "detalle_venta"
  | .ASISTENTE => "asistente"

/-- `ActionType` enumeration (`intentions.py` lines 143-166). -/
inductive ActionType
  | LISTAR | BUSCAR | CREAR | ACTUALIZAR | ELIMINAR
  | PROCESAR_VENTA | GENERAR_FACTURA | ACTUALIZAR_STOCK | CONVERSAR
deriving DecidableEq

/-- String value of an `ActionType` member. -/
def ActionType.value : ActionType → String
  | .LISTAR => "listar"
  | .BUSCAR => "buscar"
  | .CREAR => "crear"
  | .ACTUALIZAR => "actualizar"
  | .ELIMINAR => "eliminar"
  | .PROCESAR_VENTA => "procesar_venta"
  | .GENERAR_FACTURA => "generar_factura"
  | .ACTUALIZAR_STOCK => "actualizar_stock"
  | .CONVERSAR => "conversar"

/-- The `Intention` pydantic model (`intentions.py` lines 168-212). -/
structure Intention where
  type : IntentionType
  entities : List EntityType
  action : ActionType
  required_fields : List (EntityType × List String)
  optional_fields : List (EntityType × List String)
  response_template : String
deriving DecidableEq

/-- The static intent catalog `INTENTIONS` (`intentions.py` lines
216-290), as an association list in Python dict insertion order. -/
def INTENTIONS : List (String × Intention) :=
  [ ("listar_clientes",
     { type := .CONSULTA, entities := [.CLIENTE], action := .LISTAR,
       required_fields := [], optional_fields := [],
       response_template := "Listando todos los clientes registrados." }),
    ("buscar_cliente",
     { type := .CONSULTA, entities := [.CLIENTE], action := .BUSCAR,
       required_fields := [(.CLIENTE, ["nombre", "email"])],
       optional_fields := [],
       response_template := "Buscando cliente con los criterios proporcionados." }),
    ("crear_cliente",
     { type := .REGISTRO, entities := [.CLIENTE], action := .CREAR,
       required_fields := [(.CLIENTE, ["nombre", "email"])],
       optional_fields := [(.CLIENTE, ["telefono", "direccion"])],
       response_template := "Creando nuevo cliente con los datos proporcionados." }),
    ("listar_productos",
     { type := .CONSULTA, entities := [.PRODUCTO], action := .LISTAR,
       required_fields := [], optional_fields := [],
       response_template := "Listando todos los productos disponibles." }),
    ("crear_venta",
     { type := .VENTA, entities := [.VENTA, .CLIENTE, .PRODUCTO],
       action := .PROCESAR_VENTA,
       required_fields := [(.CLIENTE, ["id"]), (.PRODUCTO, ["id", "cantidad"])],
       optional_fields := [],
       response_template := "Procesando nueva venta." }),
    ("generar_factura",
     { type := .FACTURACION, entities := [.FACTURA, .VENTA],
       action := .GENERAR_FACTURA,
       required_fields := [(.VENTA, ["id"])], optional_fields := [],
       response_template := "Generando factura para la venta especificada." }),
    ("conversacion_general",
     { type := .CONVERSACION, entities := [.ASISTENTE], action := .CONVERSAR,
       required_fields := [], optional_fields := [],
       response_template := "Conversación general con el asistente." }) ]

/-- The recognition pattern dict `patterns` (`intentions.py` lines
293-349), verbatim and in insertion order. -/
def patterns : List (String × List String) :=
  [ ("listar_clientes",
     ["listar clientes", "mostrar clientes", "ver clientes",
      "dame los clientes", "quiero ver los clientes",
      "clientes registrados", "todos los clientes",
      "consultar clientes", "buscar todos los clientes",
      "listar cliente", "ver cliente"]),
    ("buscar_cliente",
     ["buscar cliente", "encontrar cliente", "cliente específico",
      "datos del cliente", "información de cliente", "buscar un cliente",
      "cliente por nombre", "cliente por email", "buscar un cliente por",
      "información de un cliente", "datos de cliente", "cliente con nombre"]),
    ("crear_cliente",
     ["crear cliente", "nuevo cliente", "añadir cliente", "registrar cliente",
      "dar de alta cliente", "agregar cliente", "insertar cliente",
      "cliente nuevo", "crear un cliente", "registrar un nuevo cliente",
      "añadir un cliente nuevo"]),
    ("listar_productos",
     ["listar productos", "mostrar productos", "ver productos",
      "dame los productos", "quiero ver los productos",
      "productos disponibles", "todos los productos", "lista de productos",
      "catálogo de productos", "inventario", "qué productos hay"]),
    ("crear_venta",
     ["crear venta", "nueva venta", "registrar venta", "hacer una venta",
      "procesar venta", "vender producto", "registrar una venta",
      "añadir venta", "generar venta", "realizar venta", "vender",
      "procesar una venta"]),
    ("generar_factura",
     ["generar factura", "crear factura", "nueva factura", "emitir factura",
      "facturar venta", "factura para venta", "facturación",
      "generar la factura", "necesito una factura", "crear una factura",
      "emitir una factura"]),
    ("conversacion_general",
     ["hola", "buenos días", "buenas tardes", "buenas noches", "saludos",
      "qué tal", "cómo estás", "cómo va", "qué hay",
      "ayuda", "ayúdame", "qué puedes hacer", "cómo funciona",
      "cuáles son tus funciones", "qué sabes hacer", "cómo te uso",
      "instrucciones", "manual", "guía",
      "quién eres", "cómo te llamas", "tu nombre", "qué eres",
      "qué tipo de asistente",
      "gracias", "muchas gracias", "te agradezco", "excelente", "genial",
      "adiós", "hasta luego", "nos vemos", "chao", "bye", "hasta pronto"]) ]

/-- `CONFIRMATION_KEYWORDS` (`intentions.py` lines 44-47). -/
def CONFIRMATION_KEYWORDS : List String :=
  ["sí", "si", "s", "yes", "confirmo", "confirmar", "ok", "dale", "adelante"]

/-- `NEGATION_KEYWORDS` (`intentions.py` lines 49-52). -/
def NEGATION_KEYWORDS : List String :=
  ["no", "n", "cancel", "cancelar", "cancelado", "nope", "negativo"]

/-- `ENTITY_KEYWORDS` (`intentions.py` lines 55-60). -/
def ENTITY_KEYWORDS : List (String × List String) :=
  [ ("cliente", ["cliente", "clientes", "usuario", "usuarios"]),
    ("producto", ["producto", "productos", "artículo", "artículos"]),
    ("venta", ["venta", "ventas", "pedido", "pedidos"]),
    ("factura", ["factura", "facturas", "comprobante"]) ]

/-- Aggregated business keyword list built in `match_intention` (line
406): concatenation of the four `ENTITY_KEYWORDS` lists. -/
def business_keywords : List String :=
  ["cliente", "clientes", "usuario", "usuarios"] ++
  ["producto", "productos", "artículo", "artículos"] ++
  ["venta", "ventas", "pedido", "pedidos"] ++
  ["factura", "facturas", "comprobante"]

/-- The `question_starters` list of `match_intention` (lines 399-400),
verbatim (several entries keep their accents and therefore can never
lead an accent-stripped normalized message). -/
def question_starters : List String :=
  ["que ", "qué ", "como ", "cómo ", "donde ", "dónde ", "cuando ",
   "cuándo ", "por qué ", "porque ", "cual ", "cuál ", "quien ", "quién "]

/-- Scan of the pattern dict (lines 392-396): first key, in insertion
order, one of whose phrases is a substring of the normalized message.
The Python code returns on the first matching phrase of the first
matching key, which selects the same key. -/
def findPatternKey : List (String × List String) → String → Option String
  | [], _ => none
  | (key, ps) :: rest, msg =>
    if ps.any (fun p => strContains msg p) then some key
    else findPatternKey rest msg

/-- `match_intention` (`intentions.py` lines 351-430), translated
branch by branch.  The local `confirmation_messages` /
`negation_messages` lists of the source coincide with the module-level
keyword lists. -/
def match_intention (message : String) : Option Intention :=
  let normalized_message := normalize_text message
  if CONFIRMATION_KEYWORDS.contains normalized_message ||
     NEGATION_KEYWORDS.contains normalized_message then
    none
  else
    match findPatternKey patterns normalized_message with
    | some intention_key => List.lookup intention_key INTENTIONS
    | none =>
      if question_starters.any (fun st => strStarts normalized_message st) then
        List.lookup "conversacion_general" INTENTIONS
      else if decide (pySplitCount normalized_message < 4) &&
              !(business_keywords.any (fun k => strContains normalized_message k)) then
        List.lookup "conversacion_general" INTENTIONS
      else if ["cliente", "clientes"].any (fun w => strContains normalized_message w) then
        List.lookup "listar_clientes" INTENTIONS
      else if ["producto", "productos", "inventario"].any
                (fun w => strContains normalized_message w) then
        List.lookup "listar_productos" INTENTIONS
      else if ["venta", "ventas", "vender"].any
                (fun w => strContains normalized_message w) then
        List.lookup "crear_venta" INTENTIONS
      else if ["factura", "facturas", "facturación"].any
                (fun w => strContains normalized_message w) then
        List.lookup "generar_factura" INTENTIONS
      else
        List.lookup "conversacion_general" INTENTIONS

/-! ### Agent service model (`agent.py`)

Python exceptions are embedded as `Except Exc`: `Exc.valueError` stands
for `ValueError`, `Exc.otherError` for every other exception class
(storage failures, `AttributeError`, ...).  The CRUD collaborator is an
oracle record whose operations may raise; its records are modelled
post-`model_to_dict`, i.e. as plain field→value dictionaries with
datetimes already rendered to ISO strings by the oracle. -/

/-- Embedded Python exception: a `ValueError` or any other exception
(carrying its `str(e)` text). -/
inductive Exc
  | valueError (msg : String)
  | otherError (msg : String)
deriving DecidableEq

/-- The `str(e)` text of an embedded exception. -/
def Exc.text : Exc → String
  | .valueError m => m
  | .otherError m => m

instance {ε α : Type} [DecidableEq ε] [DecidableEq α] :
    DecidableEq (Except ε α) := fun x y =>
  match x, y with
  | .ok a, .ok b => decidable_of_iff (a = b) (by simp)
  | .error a, .error b => decidable_of_iff (a = b) (by simp)
  | .ok _, .error _ => isFalse (fun h => Except.noConfusion h)
  | .error _, .ok _ => isFalse (fun h => Except.noConfusion h)

/-- Scalar JSON/Python value appearing in extracted data and records. -/
inductive PyVal
  | vStr (s : String)
  | vInt (n : Int)
  | vNull
deriving DecidableEq

/-- Python truthiness of a scalar value (`if not x`). -/
def PyVal.truthy : PyVal → Bool
  | .vStr s => !s.isEmpty
  | .vInt n => decide (n ≠ 0)
  | .vNull => false

/-- Python `str(x)` / f-string rendering of a scalar value. -/
def PyVal.render : PyVal → String
  | .vStr s => s
  | .vInt n => toString n
  | .vNull => "None"

/-- A field→value dictionary (one entity's extracted data, or one
serialized record). -/
def Fields : Type := List (String × PyVal)

instance : DecidableEq Fields := inferInstanceAs (DecidableEq (List (String × PyVal)))

/-- The `extracted_data` mapping: entity name → field dictionary. -/
def ExtractedData : Type := List (String × Fields)

instance : DecidableEq ExtractedData :=
  inferInstanceAs (DecidableEq (List (String × Fields)))

/-- `d.get(key, {})` on an extracted-data dictionary. -/
def getEntity (d : ExtractedData) (key : String) : Fields :=
  (List.lookup key d).getD []

/-- `fields.get(key)` on a field dictionary (`None` when absent). -/
def getField (f : Fields) (key : String) : PyVal :=
  (List.lookup key f).getD PyVal.vNull

/-- A serialized database record (`model_to_dict` output). -/
def Record : Type := Fields

instance : DecidableEq Record := inferInstanceAs (DecidableEq Fields)

/-- Oracle for the `CRUDService` collaborator (`crud.py`): each
operation may raise (`Except.error`).  `update_*` returns `none` when
the id does not exist; `delete_*` returns whether the record existed. -/
structure Crud where
  get_clientes : Except Exc (List Record)
  get_productos : Except Exc (List Record)
  get_ventas : Except Exc (List Record)
  get_facturas : Except Exc (List Record)
  create_cliente : Fields → Except Exc Record
  create_producto : Fields → Except Exc Record
  update_cliente : PyVal → Fields → Except Exc (Option Record)
  update_producto : PyVal → Fields → Except Exc (Option Record)
  delete_cliente : PyVal → Except Exc Bool
  delete_producto : PyVal → Except Exc Bool

/-- Shape of the result dictionary returned by `execute_action`
(`agent.py` lines 476-546): one constructor per distinct dict shape the
Python code builds.  `errorPayload m` stands for
`{"status": "error", "message": m}` (both the data-validation payload
and the not-implemented payload). -/
inductive ActionResult
  | clientes (rows : List Record)
  | productos (rows : List Record)
  | ventas (rows : List Record)
  | facturas (rows : List Record)
  | cliente (r : Option Record)
  | producto (r : Option Record)
  | deleted (success : Bool) (message : String)
  | errorPayload (message : String)
deriving DecidableEq

/-- `extracted_data.get(entity, {})` inside `execute_action`: when the
stored `pending_data` is `None`, the attribute access raises
`AttributeError` (a non-`ValueError` exception). -/
def pyGetEntity (d : Option ExtractedData) (key : String) : Except Exc Fields :=
  match d with
  | none => .error (.otherError "\x27NoneType\x27 object has no attribute \x27get\x27")
  | some dd => .ok (getEntity dd key)

/-- The try-block body of `execute_action` (`agent.py` lines 476-546):
the `if`/`elif` dispatch over action and entities, with the shared
fall-through to the not-implemented payload.  Missing or falsy `id`
fields raise `ValueError` exactly as lines 513-514, 520-521, 531-532,
538-539 do. -/
def execute_action_body (crud : Crud) (intention : Intention)
    (extracted_data : Option ExtractedData) : Except Exc ActionResult :=
  let notImplemented : Except Exc ActionResult :=
    .ok (.errorPayload ("Acción \x27" ++ intention.action.value ++ "\x27 no implementada."))
  if intention.action = .LISTAR then
    if intention.entities.contains .CLIENTE then
      do return .clientes (← crud.get_clientes)
    else if intention.entities.contains .PRODUCTO then
      do return .productos (← crud.get_productos)
    else if intention.entities.contains .VENTA then
      do return .ventas (← crud.get_ventas)
    else if intention.entities.contains .FACTURA then
      do return .facturas (← crud.get_facturas)
    else notImplemented
  else if intention.action = .CREAR then
    if intention.entities.contains .CLIENTE then do
      let cliente_data ← pyGetEntity extracted_data "cliente"
      let cliente ← crud.create_cliente cliente_data
      return .cliente (some cliente)
    else if intention.entities.contains .PRODUCTO then do
      let producto_data ← pyGetEntity extracted_data "producto"
      let producto ← crud.create_producto producto_data
      return .producto (some producto)
    else notImplemented
  else if intention.action = .ACTUALIZAR then
    if intention.entities.contains .CLIENTE then do
      let cliente_info ← pyGetEntity extracted_data "cliente"
      let cliente_id := getField cliente_info "id"
      if !cliente_id.truthy then
        throw (.valueError "Se requiere \x27id\x27 para actualizar cliente.")
      else do
        let cliente ← crud.update_cliente cliente_id cliente_info
        return .cliente cliente
    else if intention.entities.contains .PRODUCTO then do
      let producto_info ← pyGetEntity extracted_data "producto"
      let producto_id := getField producto_info "id"
      if !producto_id.truthy then
        throw (.valueError "Se requiere \x27id\x27 para actualizar producto.")
      else do
        let producto ← crud.update_producto producto_id producto_info
        return .producto producto
    else notImplemented
  else if intention.action = .ELIMINAR then
    if intention.entities.contains .CLIENTE then do
      let cliente_info ← pyGetEntity extracted_data "cliente"
      let cliente_id := getField cliente_info "id"
      if !cliente_id.truthy then
        throw (.valueError "Se requiere \x27id\x27 para eliminar cliente.")
      else do
        let success ← crud.delete_cliente cliente_id
        return .deleted success
          ("Cliente con ID " ++ cliente_id.render ++ " " ++
           (if success then "eliminado" else "no encontrado") ++ ".")
    else if intention.entities.contains .PRODUCTO then do
      let producto_info ← pyGetEntity extracted_data "producto"
      let producto_id := getField producto_info "id"
      if !producto_id.truthy then
        throw (.valueError "Se requiere \x27id\x27 para eliminar producto.")
      else do
        let success ← crud.delete_producto producto_id
        return .deleted success
          ("Producto con ID " ++ producto_id.render ++ " " ++
           (if success then "eliminado" else "no encontrado") ++ ".")
    else notImplemented
  else notImplemented

/-- `execute_action` (`agent.py` lines 426-557): runs the dispatch body;
`except ValueError` (lines 548-551) converts a `ValueError` into the
serializable `{"status": "error", "message": "Error de datos: ..."}`
payload, while every other exception is re-raised (lines 552-557). -/
def execute_action (crud : Crud) (intention : Intention)
    (extracted_data : Option ExtractedData) : Except Exc ActionResult :=
  match execute_action_body crud intention extracted_data with
  | .error (.valueError m) => .ok (.errorPayload ("Error de datos: " ++ m))
  | r => r

/-! ### Response formatting (`agent.py` lines 182-286) -/

/-- Simple rendering of one scalar as JSON (`json.dumps` leaf; string
escaping is not modelled because no claim depends on it). -/
def dumpsPyVal : PyVal → String
  | .vStr s => "\"" ++ s ++ "\""
  | .vInt n => toString n
  | .vNull => "null"

/-- Rendering of a field dictionary as JSON. -/
def dumpsFields (f : Fields) : String :=
  "\x7b" ++
    String.intercalate ", "
      (f.map (fun kv => "\"" ++ kv.1 ++ "\": " ++ dumpsPyVal kv.2)) ++
  "\x7d"

/-- Rendering of the (possibly `None`) extracted-data mapping as JSON,
as `json.dumps(self.pending_data, indent=2)` does (the `indent=2`
whitespace layout is abstracted to one line). -/
def dumpsExtracted : Option ExtractedData → String
  | none => "null"
  | some dd =>
    "\x7b" ++
      String.intercalate ", "
        (dd.map (fun kv => "\"" ++ kv.1 ++ "\": " ++ dumpsFields kv.2)) ++
    "\x7d"

/-- Row loop of the customer listing (`agent.py` lines 204-213),
carrying the 1-based `enumerate` index. -/
def formatClientesRows (i : Nat) : List Record → String
  | [] => ""
  | cliente :: rest =>
    "**Cliente #" ++ toString i ++ "**\n" ++
    "- ID: " ++ (getField cliente "id").render ++ "\n" ++
    "- Nombre: " ++ (getField cliente "nombre").render ++ "\n" ++
    "- Email: " ++ (getField cliente "email").render ++ "\n" ++
    (if (getField cliente "telefono").truthy then
      "- Teléfono: " ++ (getField cliente "telefono").render ++ "\n" else "") ++
    (if (getField cliente "direccion").truthy then
      "- Dirección: " ++ (getField cliente "direccion").render ++ "\n" else "") ++
    "\n" ++ formatClientesRows (i + 1) rest

/-- Row loop of the product listing (`agent.py` lines 223-229). -/
def formatProductosRows (i : Nat) : List Record → String
  | [] => ""
  | producto :: rest =>
    "**Producto #" ++ toString i ++ "**\n" ++
    "- ID: " ++ (getField producto "id").render ++ "\n" ++
    "- Nombre: " ++ (getField producto "nombre").render ++ "\n" ++
    "- Precio: $" ++ (getField producto "precio").render ++ "\n" ++
    "- Stock: " ++ (getField producto "stock").render ++ " unidades\n" ++
    "\n" ++ formatProductosRows (i + 1) rest

/-- Row loop of the sales listing (`agent.py` lines 239-245). -/
def formatVentasRows (i : Nat) : List Record → String
  | [] => ""
  | venta :: rest =>
    "**Venta #" ++ toString i ++ "**\n" ++
    "- ID: " ++ (getField venta "id").render ++ "\n" ++
    "- Cliente ID: " ++ (getField venta "cliente_id").render ++ "\n" ++
    "- Fecha: " ++ (getField venta "fecha").render ++ "\n" ++
    "- Total: $" ++ (getField venta "total").render ++ "\n" ++
    "\n" ++ formatVentasRows (i + 1) rest

/-- Row loop of the invoice listing (`agent.py` lines 255-261). -/
def formatFacturasRows (i : Nat) : List Record → String
  | [] => ""
  | factura :: rest =>
    "**Factura #" ++ toString i ++ "**\n" ++
    "- ID: " ++ (getField factura "id").render ++ "\n" ++
    "- Venta ID: " ++ (getField factura "venta_id").render ++ "\n" ++
    "- Fecha: " ++ (getField factura "fecha").render ++ "\n" ++
    "- Total: $" ++ (getField factura "monto").render ++ "\n" ++
    "\n" ++ formatFacturasRows (i + 1) rest

/-- `format_response` (`agent.py` lines 182-286).  The branches follow
the Python key tests in order; the result dictionaries built by
`execute_action` are never empty, so the leading `if not result` branch
is unreachable.  When an update returned `{"cliente": None}` (missing
id in the database), the Python code calls `None.get(...)` and raises
`AttributeError`, hence the `Except` codomain.  The final fallback is
`json.dumps` of the error payload. -/
def format_response : ActionResult → Except Exc String
  | .clientes rows =>
    if rows.isEmpty then .ok "No hay clientes registrados en el sistema."
    else .ok ("📋 **LISTA DE CLIENTES**\n\n" ++ formatClientesRows 1 rows)
  | .productos rows =>
    if rows.isEmpty then .ok "No hay productos registrados en el sistema."
    else .ok ("📦 **LISTA DE PRODUCTOS**\n\n" ++ formatProductosRows 1 rows)
  | .ventas rows =>
    if rows.isEmpty then .ok "No hay ventas registradas en el sistema."
    else .ok ("💰 **LISTA DE VENTAS**\n\n" ++ formatVentasRows 1 rows)
  | .facturas rows =>
    if rows.isEmpty then .ok "No hay facturas registradas en el sistema."
    else .ok ("🧾 **LISTA DE FACTURAS**\n\n" ++ formatFacturasRows 1 rows)
  | .cliente none =>
    .error (.otherError "\x27NoneType\x27 object has no attribute \x27get\x27")
  | .cliente (some cliente) =>
    .ok ("✅ Cliente creado/actualizado exitosamente:\n" ++
         "- ID: " ++ (getField cliente "id").render ++ "\n" ++
         "- Nombre: " ++ (getField cliente "nombre").render ++ "\n" ++
         "- Email: " ++ (getField cliente "email").render ++ "\n")
  | .producto none =>
    .error (.otherError "\x27NoneType\x27 object has no attribute \x27get\x27")
  | .producto (some producto) =>
    .ok ("✅ Producto creado/actualizado exitosamente:\n" ++
         "- ID: " ++ (getField producto "id").render ++ "\n" ++
         "- Nombre: " ++ (getField producto "nombre").render ++ "\n" ++
         "- Precio: $" ++ (getField producto "precio").render ++ "\n" ++
         "- Stock: " ++ (getField producto "stock").render ++ " unidades\n")
  | .deleted success msg =>
    .ok ((if success then "✅" else "❌") ++ " " ++ msg)
  | .errorPayload msg =>
    .ok ("\x7b\n  \"status\": \"error\",\n  \"message\": \"" ++ msg ++ "\"\n\x7d")

/-! ### Conversation turn (`agent.py` lines 288-424) -/

/-- Outcome of the robust classifier chain
(`self.intention_chain.ainvoke`, `agent.py` lines 99-163).  `isDict` and
`nonempty` model the validation at line 366 (`isinstance(..., dict)` and
Python truthiness); `extracted_data` models the value of
`intention_analysis.get("extracted_data", {})`. -/
structure ClassifierPayload where
  isDict : Bool
  nonempty : Bool
  extracted_data : Option ExtractedData
deriving DecidableEq

/-- The neutral payload the robust parser returns when no JSON can be
recovered from the model output (`agent.py` lines 120 and 124):
`{"intention": "otro", "entities": ["otro"], "action": "otro",
"extracted_data": {}}`. -/
def defaultClassifierPayload : ClassifierPayload :=
  { isDict := true, nonempty := true, extracted_data := some [] }

/-- The `data` member of a turn response: the dictionary shapes built at
`agent.py` lines 339-344 (after an execution) and 402-407 (confirmation
request), plus the conversational responder's payload. -/
inductive RespData
  | execResult (intention : IntentionType) (entities : List EntityType)
      (action : ActionType) (result : ActionResult)
  | confirmData (intention : IntentionType) (entities : List EntityType)
      (action : ActionType) (extracted_data : Option ExtractedData)
  | convData (conversation_type : String)
deriving DecidableEq

/-- A turn response `{status, message, data}` (§6 entry-point shape). -/
structure Response where
  status : String
  message : String
  data : Option RespData
deriving DecidableEq

/-- The conversation-scoped mutable fields of `AgentService`
(`agent.py` lines 75-77). -/
structure AgentState where
  pending_action : Option Intention
  pending_data : Option ExtractedData
  current_purpose : Option String
deriving DecidableEq

/-- The idle state: no pending action, data or purpose. -/
def idleState : AgentState := ⟨none, none, none⟩

/-- `process_message` (`agent.py` lines 288-424), with the external
calls passed as oracles: `classifier` is the outcome of the intention
chain for this message, `conversation_reply` the response
`handle_conversation` would produce (that method never mutates the
state and handles its own model failures).  Enum members interpolated
into f-strings are rendered by their `.value`.

Control flow reproduced exactly:
* pending branch (lines 308-345): `execute_action` runs on the stored
  action and data regardless of the message text; on success the state
  is cleared (lines 326-328) before formatting; if `execute_action`
  raises, the outer handler (lines 418-424) answers with status
  `error` and the pending state is NOT cleared; if `format_response`
  raises (null record after an update), the outer handler answers
  `error` but the state was already cleared;
* orphan confirmation check (lines 350-357) against the literal
  keyword list of line 351;
* fresh-message branch (lines 359-416): classifier first; a raised
  classifier error or an invalid payload yields the analysis-error
  response (lines 410-416); `match_intention` returning `None` yields
  the undetermined-intent response; a conversational intent delegates
  to the responder; otherwise the pending action is stored and a
  confirmation is requested. -/
def process_message (crud : Crud) (classifier : Except Exc ClassifierPayload)
    (conversation_reply : Response) (st : AgentState) (message : String) :
    AgentState × Response :=
  let message_lower := pyStripStr (pyLowerStr message)
  match st.pending_action with
  | some pending =>
    let action_type := pending.type
    let action_entities := pending.entities
    let action_action := pending.action
    match execute_action crud pending st.pending_data with
    | .error e =>
      (st, { status := "error",
             message := "Error al procesar el mensaje: " ++ e.text ++
                        "\n¿Qué tarea desea realizar?",
             data := none })
    | .ok result =>
      match format_response result with
      | .error e =>
        (idleState,
         { status := "error",
           message := "Error al procesar el mensaje: " ++ e.text ++
                      "\n¿Qué tarea desea realizar?",
           data := none })
      | .ok formatted =>
        (idleState,
         { status := "success",
           message := formatted ++ "\n\n¿Qué otra tarea desea realizar?",
           data := some (.execResult action_type action_entities
                           action_action result) })
  | none =>
    if ["sí", "si", "s", "yes", "no", "n", "cancel", "cancelar"].contains
         message_lower then
      (st, { status := "error",
             message := "No hay ninguna acción pendiente para confirmar o cancelar. ¿Qué tarea desea realizar?",
             data := none })
    else
      match classifier with
      | .error e =>
        (st, { status := "error",
               message := "Error al analizar la intención: " ++ e.text ++
                          "\n¿Qué tarea desea realizar?",
               data := none })
      | .ok intention_analysis =>
        if !intention_analysis.nonempty || !intention_analysis.isDict then
          (st, { status := "error",
                 message := "Error al analizar la intención: El análisis de intención no devolvió un resultado válido\n¿Qué tarea desea realizar?",
                 data := none })
        else
          match match_intention message with
          | none =>
            (st, { status := "error",
                   message := "No se pudo determinar la intención del mensaje. ¿Qué tarea desea realizar?",
                   data := none })
          | some intention =>
            if intention.type = .CONVERSACION then
              (st, conversation_reply)
            else
              let pending_data := intention_analysis.extracted_data
              let purpose :=
                "Realizar " ++ intention.action.value ++ " en " ++
                String.intercalate ", " (intention.entities.map EntityType.value)
              let confirmation_message :=
                "Detecté que deseas realizar la siguiente acción:\n" ++
                "Intención: " ++ intention.type.value ++ "\n" ++
                "Entidades: " ++
                  String.intercalate ", " (intention.entities.map EntityType.value) ++
                  "\n" ++
                "Acción: " ++ intention.action.value ++ "\n" ++
                "Datos extraídos: " ++ dumpsExtracted pending_data ++ "\n\n" ++
                "¿Deseas que proceda con esta acción? (Responde \x27sí\x27 o \x27no\x27)"
              (⟨some intention, pending_data, some purpose⟩,
               { status := "confirmation_required",
                 message := confirmation_message,
                 data := some (.confirmData intention.type intention.entities
                                 intention.action pending_data) })

/-! ### Session store (`session_manager.py`)

The JSON files under `session_data/` are modelled as a map from session
id to stored record; `save_session` returns the updated map. -/

/-- The serialized identifying triple of an intent
(`session_manager.py` lines 98-103): `{type, entities, action}` with
enum values rendered as strings. -/
structure SerTriple where
  type : String
  entities : List String
  action : String
deriving DecidableEq

/-- The `pending_action` slot of the in-memory state handed to
`save_session`: an `Intention` object, an already-serialized dict (as
produced by a failed reconstruction), or `None`/anything else. -/
inductive PendingField
  | intent (i : Intention)
  | raw (d : SerTriple)
  | absent
deriving DecidableEq

/-- The in-memory state dictionary handed to `save_session`
(`main.py` lines 184-188). -/
structure SessionState where
  pending_action : PendingField
  pending_data : Option ExtractedData
  current_purpose : Option String
deriving DecidableEq

/-- One serialized session record (the JSON file contents, §6:
`{pending_action: {type, entities[], action} | null, pending_data,
current_purpose}`). -/
structure StoredRecord where
  pending_action : Option SerTriple
  pending_data : Option ExtractedData
  current_purpose : Option String
deriving DecidableEq

/-- The session directory: session id → stored record. -/
def Store : Type := String → Option StoredRecord

/-- The `pending_action` field of the dictionary `load_session`
returns: a reconstructed `Intention`, the kept raw dict when
reconstruction failed, or nothing. -/
inductive LoadedPending
  | intent (i : Intention)
  | raw (d : SerTriple)
  | absent
deriving DecidableEq

/-- The dictionary returned by `load_session` (missing keys and the
missing-file `{}` result are both read back as absent fields). -/
structure LoadedState where
  pending_action : LoadedPending
  pending_data : Option ExtractedData
  current_purpose : Option String
deriving DecidableEq

/-- Serialization of the `pending_action` slot (`session_manager.py`
lines 96-107): an `Intention` is reduced to its identifying triple
using the enum `.value`s; a dict is kept as-is; anything else becomes
`null`. -/
def serializePending : PendingField → Option SerTriple
  | .intent i =>
    some { type := i.type.value,
           entities := i.entities.map EntityType.value,
           action := i.action.value }
  | .raw d => some d
  | .absent => none

/-- `save_session` (`session_manager.py` lines 58-118): rejects a blank
session id with `ValueError`, otherwise writes the serialized record
(the write itself cannot fail in the pure model; the source logs and
swallows I/O errors). -/
def save_session (store : Store) (session_id : String) (state : SessionState) :
    Except Exc Store :=
  if pyStripStr session_id = "" then
    .error (.valueError "session_id debe ser un string no vacío")
  else
    .ok (fun sid =>
      if sid = session_id then
        some { pending_action := serializePending state.pending_action,
               pending_data := state.pending_data,
               current_purpose := state.current_purpose }
      else store sid)

/-- Order-independent comparison of entity-label lists
(`set(...) == set(...)` at `session_manager.py` line 228). -/
def labelSetEq (a b : List String) : Bool :=
  a.all (b.contains ·) && b.all (a.contains ·)

/-- `reconstruct_intention` (`session_manager.py` lines 182-235):
rejects triples with falsy components, then returns the first catalog
entry whose `(type, action, entity-set)` matches, comparing entities as
sets. -/
def reconstruct_intention (d : SerTriple) : Option Intention :=
  if d.type = "" || d.action = "" || d.entities.isEmpty then none
  else
    (INTENTIONS.find? (fun kv =>
      kv.2.type.value = d.type && kv.2.action.value = d.action &&
      labelSetEq (kv.2.entities.map EntityType.value) d.entities)).map (·.2)

/-- `load_session` (`session_manager.py` lines 120-180): a blank id or a
missing record yields the empty dictionary; a stored triple is
reconstructed against the catalog, and on reconstruction failure the
raw serialized dict is KEPT in the `pending_action` field (line 168,
"usando datos brutos").  The function is total: the source catches every
exception and returns `{}`. -/
def load_session (store : Store) (session_id : String) : LoadedState :=
  if pyStripStr session_id = "" then ⟨.absent, none, none⟩
  else
    match store session_id with
    | none => ⟨.absent, none, none⟩
    | some rec =>
      match rec.pending_action with
      | none => ⟨.absent, rec.pending_data, rec.current_purpose⟩
      | some d =>
        match reconstruct_intention d with
        | some i => ⟨.intent i, rec.pending_data, rec.current_purpose⟩
        | none => ⟨.raw d, rec.pending_data, rec.current_purpose⟩

/-! ### The Pattern Matcher cascade as spec §4.2 states it -/

/-- Step 1 of the spec cascade (§4.2): a bare confirmation/negation
keyword yields "no intent". -/
def cascadeStep1 (n : String) : Option (Option Intention) :=
  if CONFIRMATION_KEYWORDS.contains n || NEGATION_KEYWORDS.contains n then
    some none
  else none

/-- Step 2: ordered catalog phrase-substring scan, first match wins. -/
def cascadeStep2 (n : String) : Option (Option Intention) :=
  match findPatternKey patterns n with
  | some key => some (List.lookup key INTENTIONS)
  | none => none

/-- Step 3: interrogative-pattern leading substring yields small talk. -/
def cascadeStep3 (n : String) : Option (Option Intention) :=
  if question_starters.any (fun st => strStarts n st) then
    some (List.lookup "conversacion_general" INTENTIONS)
  else none

/-- Step 4: fewer than 4 tokens and no aggregated entity keyword yields
small talk. -/
def cascadeStep4 (n : String) : Option (Option Intention) :=
  if decide (pySplitCount n < 4) &&
     !(business_keywords.any (fun k => strContains n k)) then
    some (List.lookup "conversacion_general" INTENTIONS)
  else none

/-- Step 5: entity-keyword defaults in the fixed order customer,
product, sale, invoice. -/
def cascadeStep5 (n : String) : Option (Option Intention) :=
  if ["cliente", "clientes"].any (fun w => strContains n w) then
    some (List.lookup "listar_clientes" INTENTIONS)
  else if ["producto", "productos", "inventario"].any (fun w => strContains n w) then
    some (List.lookup "listar_productos" INTENTIONS)
  else if ["venta", "ventas", "vender"].any (fun w => strContains n w) then
    some (List.lookup "crear_venta" INTENTIONS)
  else if ["factura", "facturas", "facturación"].any (fun w => strContains n w) then
    some (List.lookup "generar_factura" INTENTIONS)
  else none

/-- Step 6: default small talk. -/
def cascadeStep6 (_ : String) : Option (Option Intention) :=
  some (List.lookup "conversacion_general" INTENTIONS)

/-- Run an ordered fallback cascade: the first step that decides wins. -/
def runCascade : List (String → Option (Option Intention)) → String → Option Intention
  | [], _ => none
  | f :: fs, n =>
    match f n with
    | some r => r
    | none => runCascade fs n

/-- The Pattern Matcher as the spec §4.2 describes it: normalize, then
apply the six-step fallback cascade in fixed order. -/
def matcher_cascade (message : String) : Option Intention :=
  runCascade
    [cascadeStep1, cascadeStep2, cascadeStep3, cascadeStep4, cascadeStep5,
     cascadeStep6]
    (normalize_text message)

/-! ### Identifying triples and pipeline stability -/

/-- Boolean equality of the identifying triples of two catalog intents:
same category, same action, and the same set of entity labels
(order-independent, as the session reconstruction compares them). -/
def sameTriple (a b : Intention) : Bool :=
  decide (a.type = b.type) && decide (a.action = b.action) &&
  labelSetEq (a.entities.map EntityType.value) (b.entities.map EntityType.value)

/-- A character is stable under the whole normalization pipeline. -/
def stableChar (e : Char) : Prop :=
  nfdChar e = [e] ∧ combiningChar e = false ∧ pyLowerChar e = e

instance (e : Char) : Decidable (stableChar e) := by
  unfold stableChar; infer_instance

/-! ### Test oracles and fixtures -/

/-- Test oracle: an empty, always-succeeding storage collaborator
(empty tables, updates on missing ids return `None`, deletes report the
record absent). -/
def emptyCrud : Crud where
  get_clientes := .ok []
  get_productos := .ok []
  get_ventas := .ok []
  get_facturas := .ok []
  create_cliente := fun d => .ok d
  create_producto := fun d => .ok d
  update_cliente := fun _ _ => .ok none
  update_producto := fun _ _ => .ok none
  delete_cliente := fun _ => .ok false
  delete_producto := fun _ => .ok false

/-- Test oracle: a storage collaborator whose every operation raises a
non-`ValueError` infrastructure exception. -/
def failingCrud : Crud where
  get_clientes := .error (.otherError "database connection lost")
  get_productos := .error (.otherError "database connection lost")
  get_ventas := .error (.otherError "database connection lost")
  get_facturas := .error (.otherError "database connection lost")
  create_cliente := fun _ => .error (.otherError "database connection lost")
  create_producto := fun _ => .error (.otherError "database connection lost")
  update_cliente := fun _ _ => .error (.otherError "database connection lost")
  update_producto := fun _ _ => .error (.otherError "database connection lost")
  delete_cliente := fun _ => .error (.otherError "database connection lost")
  delete_producto := fun _ => .error (.otherError "database connection lost")

/-- Test fixture: a fixed conversational-responder reply. -/
def quietConv : Response :=
  { status := "success", message := "¡Hola!", data := some (.convData "greeting") }

/-- The `listar_clientes` catalog entry. -/
def listarClientesIntent : Intention :=
  { type := .CONSULTA, entities := [.CLIENTE], action := .LISTAR,
    required_fields := [], optional_fields := [],
    response_template := "Listando todos los clientes registrados." }

/-- Test fixture: a conversation awaiting confirmation of
`listar_clientes` with empty extracted data. -/
def pendingListState : AgentState :=
  ⟨some listarClientesIntent, some [], some "Realizar listar en cliente"⟩

/-- An update-customer intention value (the dispatcher dispatches on
`action`/`entities` of any `Intention` it is handed). -/
def updateClienteIntent : Intention :=
  { type := .MODIFICACION, entities := [.CLIENTE], action := .ACTUALIZAR,
    required_fields := [], optional_fields := [], response_template := "" }

/-- The action/entity combinations `execute_action` actually covers
(`agent.py` lines 477-542). -/
def dispatcherCovers (i : Intention) : Bool :=
  (decide (i.action = .LISTAR) &&
    (i.entities.contains .CLIENTE || i.entities.contains .PRODUCTO ||
     i.entities.contains .VENTA || i.entities.contains .FACTURA)) ||
  ((decide (i.action = .CREAR) || decide (i.action = .ACTUALIZAR) ||
    decide (i.action = .ELIMINAR)) &&
    (i.entities.contains .CLIENTE || i.entities.contains .PRODUCTO))

/-- Composition `load(save(id, state))` from the spec's round-trip
property: `none` exactly when `save_session` raised. -/
def saveThenLoad (store : Store) (session_id : String) (st : SessionState) :
    Option LoadedState :=
  (save_session store session_id st).toOption.map
    (fun s => load_session s session_id)

/-- A serialized triple matching no catalog entry. -/
def rawTripleFx : SerTriple := ⟨"consulta", ["cliente", "producto"], "listar"⟩

/-! ### Helper lemmas -/

/-- Case split for `pyLowerChar`: a character is either unchanged or a
key of the lower-case table. -/
lemma low_spec (c : Char) :
    pyLowerChar c = c ∨ ∃ kv, kv ∈ lowTable ∧ kv.1 = c ∧ pyLowerChar c = kv.2 := by
  unfold pyLowerChar
  cases h : lowTable.find? (fun kv => kv.1 = c) with
  | none => left; rfl
  | some kv =>
    right
    refine ⟨kv, List.mem_of_find?_eq_some h, ?_, by simp⟩
    have := List.find?_some h
    simpa using this

/-- Case split for `nfdChar`: a character is either
decomposition-stable or a key of the decomposition table. -/
lemma nfd_spec (c : Char) :
    nfdChar c = [c] ∨ ∃ kv, kv ∈ nfdTable ∧ kv.1 = c ∧ nfdChar c = kv.2 := by
  unfold nfdChar
  cases h : nfdTable.find? (fun kv => kv.1 = c) with
  | none => left; rfl
  | some kv =>
    right
    refine ⟨kv, List.mem_of_find?_eq_some h, ?_, by simp⟩
    have := List.find?_some h
    simpa using this

/-- Every non-combining character of a table decomposition lower-cases
to a pipeline-stable character (checked over the concrete table). -/
lemma table_decomp_stable :
    ∀ kv ∈ nfdTable, ∀ d ∈ kv.2, combiningChar d = false →
      stableChar (pyLowerChar d) := by decide

/-- Every decomposition-stable key of the lower-case table maps to a
pipeline-stable character (checked over the concrete table). -/
lemma table_lower_stable :
    ∀ kv ∈ lowTable, nfdChar kv.1 = [kv.1] → stableChar kv.2 := by decide

/-- Any non-combining character of any decomposition lower-cases to a
pipeline-stable character. -/
lemma stable_of_mem_nfd (c d : Char) (hd : d ∈ nfdChar c)
    (hcomb : combiningChar d = false) : stableChar (pyLowerChar d) := by
  rcases nfd_spec c with h | ⟨kv, hmem, hkey, hval⟩
  · rw [h] at hd
    simp at hd
    subst hd
    rcases low_spec d with hl | ⟨kv, hmem, hkey, hval⟩
    · rw [hl]; exact ⟨h, hcomb, hl⟩
    · have hst := table_lower_stable kv hmem
      rw [hkey] at hst
      rw [hval]
      exact hst h
  · rw [hval] at hd
    exact table_decomp_stable kv hmem d hd hcomb

/-- Members of `nfdList l` come from the decomposition of a member of
`l`. -/
lemma mem_nfdList {d : Char} :
    ∀ l, d ∈ nfdList l → ∃ c, c ∈ l ∧ d ∈ nfdChar c := by
  intro l
  induction l with
  | nil => simp [nfdList]
  | cons c cs ih =>
    intro hd
    rw [nfdList] at hd
    rcases List.mem_append.mp hd with h | h
    · exact ⟨c, by simp, h⟩
    · rcases ih h with ⟨e, h1, h2⟩
      exact ⟨e, by simp [h1], h2⟩

/-- A list of decomposition-stable characters is a fixed point of
`nfdList`. -/
lemma nfdList_eq_self : ∀ l : List Char, (∀ e ∈ l, nfdChar e = [e]) →
    nfdList l = l := by
  intro l
  induction l with
  | nil => intro _; rfl
  | cons c cs ih =>
    intro h
    rw [nfdList, h c (by simp), ih (fun e he => h e (by simp [he]))]
    rfl

/-- A list whose members all satisfy `p` is a fixed point of
`List.filter p`. -/
lemma filter_eq_self_of_all {p : Char → Bool} :
    ∀ l : List Char, (∀ e ∈ l, p e = true) → l.filter p = l := by
  intro l
  induction l with
  | nil => intro _; rfl
  | cons c cs ih =>
    intro h
    rw [List.filter_cons, if_pos (h c (by simp)),
        ih (fun e he => h e (by simp [he]))]

/-- A list fixed pointwise by `f` is a fixed point of `List.map f`. -/
lemma map_eq_self_of_all {f : Char → Char} :
    ∀ l : List Char, (∀ e ∈ l, f e = e) → l.map f = l := by
  intro l
  induction l with
  | nil => intro _; rfl
  | cons c cs ih =>
    intro h
    rw [List.map_cons, h c (by simp), ih (fun e he => h e (by simp [he]))]

/-- Unfolding equation of `trimRight` on a cons cell. -/
lemma trimRight_cons (c : Char) (cs : List Char) :
    trimRight (c :: cs) =
      match trimRight cs with
      | [] => if pyIsSpace c then [] else [c]
      | d :: ds => c :: d :: ds := rfl

/-- `trimRight` only keeps characters of its input. -/
lemma mem_trimRight : ∀ l : List Char, ∀ e, e ∈ trimRight l → e ∈ l := by
  intro l
  induction l with
  | nil => intro e h; simpa [trimRight] using h
  | cons c cs ih =>
    intro e h
    rw [trimRight_cons] at h
    rcases hcs : trimRight cs with _ | ⟨d, ds⟩
    · rw [hcs] at h
      dsimp at h
      split_ifs at h with hsp
      · simp at h
      · simp at h
        simp [h]
    · rw [hcs] at h
      dsimp at h
      rcases List.mem_cons.mp h with rfl | h2
      · simp
      · have := ih e (hcs ▸ h2)
        simp [this]

/-- `List.dropWhile` only keeps characters of its input. -/
lemma mem_dropWhile {p : Char → Bool} :
    ∀ l : List Char, ∀ e, e ∈ l.dropWhile p → e ∈ l := by
  intro l
  induction l with
  | nil => intro e h; simpa using h
  | cons c cs ih =>
    intro e h
    rw [List.dropWhile_cons] at h
    split_ifs at h with hc
    · exact List.mem_cons_of_mem c (ih e h)
    · exact h

/-- `pyStrip` only keeps characters of its input. -/
lemma mem_pyStrip (l : List Char) (e : Char) (h : e ∈ pyStrip l) : e ∈ l :=
  mem_dropWhile l e (mem_trimRight _ e h)

/-- Length bound for `List.dropWhile`. -/
lemma length_dropWhile_le' {p : Char → Bool} :
    ∀ l : List Char, (l.dropWhile p).length ≤ l.length := by
  intro l
  induction l with
  | nil => simp
  | cons c cs ih =>
    rw [List.dropWhile_cons]
    split_ifs
    · exact Nat.le_trans ih (Nat.le_succ _)
    · simp

/-- `List.dropWhile` is idempotent. -/
lemma dropWhile_idempotent {p : Char → Bool} :
    ∀ l : List Char, (l.dropWhile p).dropWhile p = l.dropWhile p := by
  intro l
  induction l with
  | nil => rfl
  | cons c cs ih =>
    rw [List.dropWhile_cons]
    split_ifs with hc
    · exact ih
    · rw [List.dropWhile_cons, if_neg hc]

/-- `trimRight` is idempotent. -/
lemma trimRight_idempotent : ∀ l : List Char, trimRight (trimRight l) = trimRight l := by
  intro l
  induction l with
  | nil => rfl
  | cons c cs ih =>
    rw [trimRight_cons]
    rcases hcs : trimRight cs with _ | ⟨d, ds⟩
    · dsimp
      split_ifs with hsp
      · rfl
      · simp [trimRight_cons, trimRight, hsp]
    · dsimp
      rw [hcs] at ih
      rw [trimRight_cons]
      rcases hds : trimRight (d :: ds) with _ | ⟨x, xs⟩
      · rw [hds] at ih; simp at ih
      · rw [hds] at ih
        dsimp
        rw [← ih, ← hds]

/-- Trimming the right of a left-trimmed list leaves it left-trimmed. -/
lemma dropWhile_trimRight (l : List Char)
    (h : l.dropWhile pyIsSpace = l) :
    (trimRight l).dropWhile pyIsSpace = trimRight l := by
  cases l with
  | nil => rfl
  | cons c cs =>
    have hc : pyIsSpace c = false := by
      by_contra hx
      have hx' : pyIsSpace c = true := by
        cases hcv : pyIsSpace c
        · exact absurd hcv hx
        · rfl
      rw [List.dropWhile_cons, if_pos hx'] at h
      have hlen := length_dropWhile_le' (p := pyIsSpace) cs
      rw [h] at hlen
      simp at hlen
    rw [trimRight_cons]
    rcases hcs : trimRight cs with _ | ⟨d, ds⟩
    · dsimp
      rw [if_neg (by simp [hc])]
      simp [List.dropWhile_cons, hc]
    · dsimp
      simp [List.dropWhile_cons, hc]

/-- `pyStrip` is idempotent. -/
lemma pyStrip_idempotent (l : List Char) : pyStrip (pyStrip l) = pyStrip l := by
  unfold pyStrip
  rw [dropWhile_trimRight _ (dropWhile_idempotent _), trimRight_idempotent]

/-- Every character of a normalized list is pipeline-stable. -/
lemma normalizeList_stable (l : List Char) (e : Char)
    (h : e ∈ normalizeList l) : stableChar e := by
  unfold normalizeList at h
  have ht := mem_pyStrip _ _ h
  rcases List.mem_map.mp ht with ⟨d, hd, rfl⟩
  rcases List.mem_filter.mp hd with ⟨hdn, hdc⟩
  rcases mem_nfdList _ hdn with ⟨c, _, hdc'⟩
  exact stable_of_mem_nfd c d hdc' (by simpa using hdc)

/-- `normalizeList` is idempotent. -/
lemma normalizeList_idempotent (l : List Char) :
    normalizeList (normalizeList l) = normalizeList l := by
  have hst := normalizeList_stable l
  conv_lhs => rw [normalizeList]
  rw [nfdList_eq_self _ (fun e he => (hst e he).1),
      filter_eq_self_of_all _ (fun e he => by simp [(hst e he).2.1]),
      map_eq_self_of_all _ (fun e he => (hst e he).2.2)]
  exact pyStrip_idempotent _

/-- Reduction of a turn with a pending action: the stored action is
executed on the stored data, and the reply is a pure function of that
execution's outcome (the incoming message and the classifier play no
role). -/
lemma processMessage_pending (crud : Crud)
    (classifier : Except Exc ClassifierPayload) (conversation_reply : Response)
    (st : AgentState) (message : String) (pa : Intention)
    (hpend : st.pending_action = some pa) :
    process_message crud classifier conversation_reply st message =
      match execute_action crud pa st.pending_data with
      | .error e =>
        (st, { status := "error",
               message := "Error al procesar el mensaje: " ++ e.text ++
                          "\n¿Qué tarea desea realizar?",
               data := none })
      | .ok result =>
        match format_response result with
        | .error e =>
          (idleState,
           { status := "error",
             message := "Error al procesar el mensaje: " ++ e.text ++
                        "\n¿Qué tarea desea realizar?",
             data := none })
        | .ok formatted =>
          (idleState,
           { status := "success",
             message := formatted ++ "\n\n¿Qué otra tarea desea realizar?",
             data := some (.execResult pa.type pa.entities pa.action result) }) := by
  unfold process_message
  rw [hpend]

/-- Reduction of a fresh turn (no pending action, message not in the
hard-coded bare-keyword list) once the classifier outcome is a valid
dictionary payload: intent resolution is driven by `match_intention`. -/
lemma processMessage_fresh (crud : Crud) (p : ClassifierPayload)
    (conversation_reply : Response) (st : AgentState) (message : String)
    (hpend : st.pending_action = none)
    (hkw : (["sí", "si", "s", "yes", "no", "n", "cancel", "cancelar"] :
        List String).contains (pyStripStr (pyLowerStr message)) = false)
    (hvalid : (!p.nonempty || !p.isDict) = false) :
    process_message crud (.ok p) conversation_reply st message =
      match match_intention message with
      | none =>
        (st, { status := "error",
               message := "No se pudo determinar la intención del mensaje. ¿Qué tarea desea realizar?",
               data := none })
      | some intention =>
        if intention.type = .CONVERSACION then (st, conversation_reply)
        else
          (⟨some intention, p.extracted_data,
            some ("Realizar " ++ intention.action.value ++ " en " ++
              String.intercalate ", " (intention.entities.map EntityType.value))⟩,
           { status := "confirmation_required",
             message :=
               "Detecté que deseas realizar la siguiente acción:\n" ++
               "Intención: " ++ intention.type.value ++ "\n" ++
               "Entidades: " ++
                 String.intercalate ", " (intention.entities.map EntityType.value) ++
                 "\n" ++
               "Acción: " ++ intention.action.value ++ "\n" ++
               "Datos extraídos: " ++ dumpsExtracted p.extracted_data ++ "\n\n" ++
               "¿Deseas que proceda con esta acción? (Responde \x27sí\x27 o \x27no\x27)",
             data := some (.confirmData intention.type intention.entities
                             intention.action p.extracted_data) }) := by
  unfold process_message
  rw [hpend]
  dsimp only
  rw [if_neg (by rw [hkw]; exact fun h => Bool.noConfusion h)]
  rw [if_neg (by rw [hvalid]; exact fun h => Bool.noConfusion h)]

/-- Reconstruction inverts serialization for every catalog entry
(checked over the concrete catalog; uniqueness of the identifying
triples makes the first match the entry itself). -/
lemma catalog_reconstruct_roundtrip :
    ∀ p ∈ INTENTIONS,
      reconstruct_intention
        ⟨p.2.type.value, p.2.entities.map EntityType.value, p.2.action.value⟩ =
        some p.2 := by decide

/-! ### Claim theorems -/

/-- C9: for every input string `s`, the text normalizer of
`intentions.py` (NFD decomposition, removal of combining marks,
lower-casing, trimming) is idempotent:
`normalize_text (normalize_text s) = normalize_text s`. -/
theorem normalize_text_idempotent (s : String) :
    normalize_text (normalize_text s) = normalize_text s :=
  congrArg String.mk (normalizeList_idempotent s.data)

/-- C8: no two distinct entries of the static catalog `INTENTIONS`
share the same identifying triple (category, action, set of entity
labels): entries with equal triples are the same entry. -/
theorem intentions_triple_unique :
    INTENTIONS.Pairwise (fun a b => sameTriple a.2 b.2 = false) := by decide

/-- C5: `match_intention` applies exactly the six-step fallback cascade
of spec §4.2 in its fixed order: confirmation/negation keywords first,
then the ordered catalog phrase scan (first match wins), then the
interrogative-pattern rule, then the short-message rule, then the
entity-keyword defaults in the fixed order customer → product → sale →
invoice, and finally small talk by default. -/
theorem match_intention_eq_cascade (m : String) :
    match_intention m = matcher_cascade m := by
  unfold match_intention matcher_cascade
  simp only [runCascade, cascadeStep1, cascadeStep2, cascadeStep3, cascadeStep4,
    cascadeStep5, cascadeStep6]
  by_cases h1 : (CONFIRMATION_KEYWORDS.contains (normalize_text m) ||
      NEGATION_KEYWORDS.contains (normalize_text m)) = true
  · simp only [if_pos h1]
  · simp only [if_neg h1]
    cases hfind : findPatternKey patterns (normalize_text m) with
    | some key => simp only [hfind]
    | none =>
      simp only [hfind]
      split_ifs <;> rfl

/-- C2: whenever a conversation state holds a pending action, one call to
`process_message` executes that stored action via `execute_action` on the
stored extracted data for ANY incoming message text: the reply is a pure
function of the execution outcome, in which neither the message content
nor the classifier outcome occurs — the follow-up message is never
re-classified. -/
theorem pending_action_always_executed (crud : Crud)
    (classifier : Except Exc ClassifierPayload) (conversation_reply : Response)
    (st : AgentState) (message : String) (pa : Intention)
    (hpend : st.pending_action = some pa) :
    process_message crud classifier conversation_reply st message =
      match execute_action crud pa st.pending_data with
      | .error e =>
        (st, { status := "error",
               message := "Error al procesar el mensaje: " ++ e.text ++
                          "\n¿Qué tarea desea realizar?",
               data := none })
      | .ok result =>
        match format_response result with
        | .error e =>
          (idleState,
           { status := "error",
             message := "Error al procesar el mensaje: " ++ e.text ++
                        "\n¿Qué tarea desea realizar?",
             data := none })
        | .ok formatted =>
          (idleState,
           { status := "success",
             message := formatted ++ "\n\n¿Qué otra tarea desea realizar?",
             data := some (.execResult pa.type pa.entities pa.action result) }) :=
  processMessage_pending crud classifier conversation_reply st message pa hpend

/-- Witness for C2: an unrelated follow-up message still executes the
pending `listar_clientes` action against the empty store. -/
theorem pending_action_always_executed_witness :
    process_message emptyCrud (.ok defaultClassifierPayload) quietConv
        pendingListState "mensaje sin ninguna relación" =
      (idleState,
       { status := "success",
         message := "No hay clientes registrados en el sistema.\n\n¿Qué otra tarea desea realizar?",
         data := some (.execResult .CONSULTA [.CLIENTE] .LISTAR (.clientes [])) }) :=
  (pending_action_always_executed emptyCrud (.ok defaultClassifierPayload)
      quietConv pendingListState "mensaje sin ninguna relación"
      listarClientesIntent rfl).trans (by decide)

/-- C1, evaluated at the failing input: a conversation awaiting
confirmation of `listar_clientes` answered with `"sí"`.  When the
storage collaborator succeeds, the state is reset to idle as the claim
says; but when `execute_action` raises (storage failure), the reply is
the outer error response and `pending_action`, `pending_data` and
`current_purpose` are NOT cleared — the state is returned unchanged,
still holding the pending action. -/
theorem pending_state_after_execution_eval :
    (process_message emptyCrud (.ok defaultClassifierPayload) quietConv
        pendingListState "sí").1 = idleState ∧
    (process_message emptyCrud (.ok defaultClassifierPayload) quietConv
        pendingListState "sí").2.status = "success" ∧
    (process_message failingCrud (.ok defaultClassifierPayload) quietConv
        pendingListState "sí").1 = pendingListState ∧
    (process_message failingCrud (.ok defaultClassifierPayload) quietConv
        pendingListState "sí").1.pending_action = some listarClientesIntent ∧
    (process_message failingCrud (.ok defaultClassifierPayload) quietConv
        pendingListState "sí").2.status = "error" := by decide

/-- Counterexample to C10 as stated: a pending update-customer action
whose stored data has id 5, against a store with no such record.
`execute_action` returns normally with `{"cliente": None}`, yet
`process_message` answers with top-level status `"error"` (the
formatting of the null record raises `AttributeError`) — so an error
status can arise from the pending branch without `execute_action`
raising. -/
theorem pending_error_status_without_raise :
    execute_action emptyCrud updateClienteIntent
        (some [("cliente", [("id", PyVal.vInt 5)])]) = .ok (.cliente none) ∧
    (process_message emptyCrud (.ok defaultClassifierPayload) quietConv
        ⟨some updateClienteIntent, some [("cliente", [("id", PyVal.vInt 5)])], none⟩
        "sí").2.status = "error" := by decide

/-- C10 amended: when the dispatcher returns a validation-error (or
not-implemented) payload, `process_message` answers with top-level
status `"success"`, the payload embedded in `data.result`, and the
state reset; when `execute_action` raises, the status is `"error"` with
the state kept; and whenever execution AND response formatting both
return normally the status is `"success"` — so an `"error"` status
arises from the pending branch only when `execute_action` raises or
when formatting of the returned payload raises. -/
theorem pending_branch_status_policy (crud : Crud)
    (classifier : Except Exc ClassifierPayload) (conversation_reply : Response)
    (st : AgentState) (message : String) (pa : Intention)
    (hpend : st.pending_action = some pa) :
    (∀ m, execute_action crud pa st.pending_data = .ok (.errorPayload m) →
       (process_message crud classifier conversation_reply st message).2.status = "success" ∧
       (process_message crud classifier conversation_reply st message).2.data =
         some (.execResult pa.type pa.entities pa.action (.errorPayload m)) ∧
       (process_message crud classifier conversation_reply st message).1 = idleState) ∧
    (∀ e, execute_action crud pa st.pending_data = .error e →
       (process_message crud classifier conversation_reply st message).2.status = "error" ∧
       (process_message crud classifier conversation_reply st message).1 = st) ∧
    (∀ r f, execute_action crud pa st.pending_data = .ok r →
       format_response r = .ok f →
       (process_message crud classifier conversation_reply st message).2.status = "success") := by
  refine ⟨?_, ?_, ?_⟩
  · intro m hexec
    rw [processMessage_pending crud classifier conversation_reply st message pa hpend, hexec]
    exact ⟨rfl, rfl, rfl⟩
  · intro e hexec
    rw [processMessage_pending crud classifier conversation_reply st message pa hpend, hexec]
    exact ⟨rfl, rfl⟩
  · intro r f hexec hfmt
    rw [processMessage_pending crud classifier conversation_reply st message pa hpend, hexec]
    dsimp only
    rw [hfmt]

/-- Witness for C10 amended: a pending update-customer action with no
id in the extracted data yields status `"success"` with the
data-validation error payload embedded in `data.result`, and the state
is reset to idle. -/
theorem pending_branch_status_policy_witness :
    (process_message emptyCrud (.ok defaultClassifierPayload) quietConv
        ⟨some updateClienteIntent, some [("cliente", [])], none⟩ "sí").2.status = "success" ∧
    (process_message emptyCrud (.ok defaultClassifierPayload) quietConv
        ⟨some updateClienteIntent, some [("cliente", [])], none⟩ "sí").2.data =
      some (.execResult .MODIFICACION [.CLIENTE] .ACTUALIZAR
        (.errorPayload "Error de datos: Se requiere \x27id\x27 para actualizar cliente.")) ∧
    (process_message emptyCrud (.ok defaultClassifierPayload) quietConv
        ⟨some updateClienteIntent, some [("cliente", [])], none⟩ "sí").1 = idleState :=
  (pending_branch_status_policy emptyCrud (.ok defaultClassifierPayload) quietConv
      ⟨some updateClienteIntent, some [("cliente", [])], none⟩ "sí"
      updateClienteIntent rfl).1
    "Error de datos: Se requiere \x27id\x27 para actualizar cliente." (by decide)

/-- Counterexample to C4 as stated: when the classifier call raises
(times out) on the fresh message `"listar clientes"` — for which the
matcher resolves the non-small-talk `listar_clientes` intent —
`process_message` returns status `"error"`, not
`confirmation_required`: the inner exception handler answers before
`match_intention` is ever consulted. -/
theorem classifier_raise_yields_error_status :
    (process_message emptyCrud (.error (.otherError "read timed out")) quietConv
        idleState "listar clientes").2.status = "error" ∧
    (process_message emptyCrud (.error (.otherError "read timed out")) quietConv
        idleState "listar clientes").2.status ≠ "confirmation_required" ∧
    match_intention "listar clientes" = some listarClientesIntent ∧
    listarClientesIntent.type ≠ .CONVERSACION := by decide

/-- C4 amended: on a fresh message, when the classifier degrades
malformed model output to the default payload (as the robust parser
does — `extracted_data` defaulting to the empty mapping), the pattern
matcher still drives intent resolution and the turn reaches status
`confirmation_required` whenever the matcher resolves an intent other
than small talk; the pending data stored is the empty mapping.  (When
the classifier call itself raises, `process_message` instead returns
status `"error"` — see the counterexample.) -/
theorem classifier_default_payload_still_confirms (crud : Crud)
    (conversation_reply : Response) (st : AgentState) (message : String)
    (i : Intention)
    (hpend : st.pending_action = none)
    (hkw : (["sí", "si", "s", "yes", "no", "n", "cancel", "cancelar"] :
        List String).contains (pyStripStr (pyLowerStr message)) = false)
    (hmatch : match_intention message = some i)
    (hconv : i.type ≠ .CONVERSACION) :
    (process_message crud (.ok defaultClassifierPayload) conversation_reply
        st message).2.status = "confirmation_required" ∧
    (process_message crud (.ok defaultClassifierPayload) conversation_reply
        st message).1.pending_action = some i ∧
    (process_message crud (.ok defaultClassifierPayload) conversation_reply
        st message).1.pending_data = some [] ∧
    (process_message crud (.ok defaultClassifierPayload) conversation_reply
        st message).2.data =
      some (.confirmData i.type i.entities i.action (some [])) := by
  rw [processMessage_fresh crud defaultClassifierPayload conversation_reply
        st message hpend hkw rfl, hmatch]
  dsimp only
  rw [if_neg hconv]
  exact ⟨rfl, rfl, rfl, rfl⟩

/-- Witness for C4 amended: `"listar clientes"` with the default
classifier payload reaches `confirmation_required` with the
`listar_clientes` intent and empty extracted data. -/
theorem classifier_default_payload_still_confirms_witness :
    (process_message emptyCrud (.ok defaultClassifierPayload) quietConv
        idleState "listar clientes").2.status = "confirmation_required" ∧
    (process_message emptyCrud (.ok defaultClassifierPayload) quietConv
        idleState "listar clientes").1.pending_action = some listarClientesIntent ∧
    (process_message emptyCrud (.ok defaultClassifierPayload) quietConv
        idleState "listar clientes").1.pending_data = some [] ∧
    (process_message emptyCrud (.ok defaultClassifierPayload) quietConv
        idleState "listar clientes").2.data =
      some (.confirmData .CONSULTA [.CLIENTE] .LISTAR (some [])) :=
  classifier_default_payload_still_confirms emptyCrud quietConv idleState
    "listar clientes" listarClientesIntent rfl (by decide) (by decide) (by decide)

/-- Counterexample to C7 as stated: the bare confirmation keyword
`"ok"` (a member of `CONFIRMATION_KEYWORDS`) with no pending action
does NOT get the nothing-pending reply: it falls through to intent
analysis and receives the undetermined-intent error reply.  The state
does remain idle. -/
theorem orphan_ok_gets_generic_error :
    (process_message emptyCrud (.ok defaultClassifierPayload) quietConv idleState
        "ok").2 =
      { status := "error",
        message := "No se pudo determinar la intención del mensaje. ¿Qué tarea desea realizar?",
        data := none } ∧
    (process_message emptyCrud (.ok defaultClassifierPayload) quietConv idleState
        "ok").2.message ≠
      "No hay ninguna acción pendiente para confirmar o cancelar. ¿Qué tarea desea realizar?" ∧
    (process_message emptyCrud (.ok defaultClassifierPayload) quietConv idleState
        "ok").1 = idleState ∧
    CONFIRMATION_KEYWORDS.contains (normalize_text "ok") = true := by decide

/-- C7 amended: with no pending action, only the hard-coded list
`["sí","si","s","yes","no","n","cancel","cancelar"]` of
`process_message` triggers the nothing-pending error reply; the
remaining confirmation/negation keywords of the module-level lists
(`ok`, `dale`, `confirmo`, `nope`, ...) fall through to intent
analysis, where `match_intention` detects the keyword and returns no
intent, producing the undetermined-intent error reply instead.  In both
cases the state is returned unchanged, so it remains idle with no
pending action created. -/
theorem orphan_confirmation_policy (crud : Crud)
    (classifier : Except Exc ClassifierPayload) (conversation_reply : Response)
    (st : AgentState) (message : String)
    (hpend : st.pending_action = none) :
    ((["sí", "si", "s", "yes", "no", "n", "cancel", "cancelar"] :
        List String).contains (pyStripStr (pyLowerStr message)) = true →
       process_message crud classifier conversation_reply st message =
         (st, { status := "error",
                message := "No hay ninguna acción pendiente para confirmar o cancelar. ¿Qué tarea desea realizar?",
                data := none })) ∧
    (∀ p, (["sí", "si", "s", "yes", "no", "n", "cancel", "cancelar"] :
        List String).contains (pyStripStr (pyLowerStr message)) = false →
       (CONFIRMATION_KEYWORDS.contains (normalize_text message) ||
        NEGATION_KEYWORDS.contains (normalize_text message)) = true →
       classifier = .ok p → (!p.nonempty || !p.isDict) = false →
       process_message crud classifier conversation_reply st message =
         (st, { status := "error",
                message := "No se pudo determinar la intención del mensaje. ¿Qué tarea desea realizar?",
                data := none })) := by
  constructor
  · intro hkw
    unfold process_message
    rw [hpend]
    dsimp only
    rw [if_pos hkw]
  · intro p hkw hnorm hcl hvalid
    subst hcl
    have hmatch : match_intention message = none := by
      unfold match_intention
      rw [if_pos hnorm]
    rw [processMessage_fresh crud p conversation_reply st message hpend hkw hvalid,
        hmatch]

/-- Witness for C7 amended: `" SÍ "` (hard-coded list after
lower/strip) gets the nothing-pending reply; `"dale"` (a confirmation
keyword outside the hard-coded list) gets the undetermined-intent
reply; both leave the state idle. -/
theorem orphan_confirmation_policy_witness :
    (process_message emptyCrud (.ok defaultClassifierPayload) quietConv idleState
        " SÍ " =
      (idleState,
       { status := "error",
         message := "No hay ninguna acción pendiente para confirmar o cancelar. ¿Qué tarea desea realizar?",
         data := none })) ∧
    (process_message emptyCrud (.ok defaultClassifierPayload) quietConv idleState
        "dale" =
      (idleState,
       { status := "error",
         message := "No se pudo determinar la intención del mensaje. ¿Qué tarea desea realizar?",
         data := none })) :=
  ⟨(orphan_confirmation_policy emptyCrud (.ok defaultClassifierPayload) quietConv
      idleState " SÍ " rfl).1 (by decide),
   (orphan_confirmation_policy emptyCrud (.ok defaultClassifierPayload) quietConv
      idleState "dale" rfl).2 defaultClassifierPayload (by decide) (by decide)
      rfl rfl⟩

/-- C6: `execute_action` error policy.  An update or delete on a
customer or product whose extracted data lacks a truthy `id` yields the
structured data-validation error payload (never a raised `ValueError`);
every action/entity combination the dispatcher does not cover yields
the explicit not-implemented error payload; no `ValueError` ever
escapes `execute_action`; and every non-`ValueError` exception of the
dispatch body propagates to the caller unchanged. -/
theorem dispatcher_error_policy :
    (∀ (crud : Crud) (data : ExtractedData) (i : Intention),
       i.action = .ACTUALIZAR → i.entities.contains .CLIENTE = true →
       (getField (getEntity data "cliente") "id").truthy = false →
       execute_action crud i (some data) =
         .ok (.errorPayload "Error de datos: Se requiere \x27id\x27 para actualizar cliente.")) ∧
    (∀ (crud : Crud) (data : ExtractedData) (i : Intention),
       i.action = .ELIMINAR → i.entities.contains .CLIENTE = true →
       (getField (getEntity data "cliente") "id").truthy = false →
       execute_action crud i (some data) =
         .ok (.errorPayload "Error de datos: Se requiere \x27id\x27 para eliminar cliente.")) ∧
    (∀ (crud : Crud) (data : ExtractedData) (i : Intention),
       i.action = .ACTUALIZAR → i.entities.contains .CLIENTE = false →
       i.entities.contains .PRODUCTO = true →
       (getField (getEntity data "producto") "id").truthy = false →
       execute_action crud i (some data) =
         .ok (.errorPayload "Error de datos: Se requiere \x27id\x27 para actualizar producto.")) ∧
    (∀ (crud : Crud) (data : ExtractedData) (i : Intention),
       i.action = .ELIMINAR → i.entities.contains .CLIENTE = false →
       i.entities.contains .PRODUCTO = true →
       (getField (getEntity data "producto") "id").truthy = false →
       execute_action crud i (some data) =
         .ok (.errorPayload "Error de datos: Se requiere \x27id\x27 para eliminar producto.")) ∧
    (∀ (crud : Crud) (d : Option ExtractedData) (i : Intention),
       dispatcherCovers i = false →
       execute_action crud i d =
         .ok (.errorPayload ("Acción \x27" ++ i.action.value ++ "\x27 no implementada."))) ∧
    (∀ (crud : Crud) (d : Option ExtractedData) (i : Intention) (m : String),
       execute_action crud i d ≠ .error (.valueError m)) ∧
    (∀ (crud : Crud) (d : Option ExtractedData) (i : Intention) (m : String),
       execute_action_body crud i d = .error (.otherError m) →
       execute_action crud i d = .error (.otherError m)) := by
  refine ⟨?_, ?_, ?_, ?_, ?_, ?_, ?_⟩
  · intro crud data i hact hcli htr
    have hcli' : EntityType.CLIENTE ∈ i.entities := by simpa using hcli
    simp [execute_action, execute_action_body, pyGetEntity, hact, hcli', htr,
      Bind.bind, Except.bind]
  · intro crud data i hact hcli htr
    have hcli' : EntityType.CLIENTE ∈ i.entities := by simpa using hcli
    simp [execute_action, execute_action_body, pyGetEntity, hact, hcli', htr,
      Bind.bind, Except.bind]
  · intro crud data i hact hcli hpro htr
    have hcli' : EntityType.CLIENTE ∉ i.entities := by simpa using hcli
    have hpro' : EntityType.PRODUCTO ∈ i.entities := by simpa using hpro
    simp [execute_action, execute_action_body, pyGetEntity, hact, hcli', hpro',
      htr, Bind.bind, Except.bind]
  · intro crud data i hact hcli hpro htr
    have hcli' : EntityType.CLIENTE ∉ i.entities := by simpa using hcli
    have hpro' : EntityType.PRODUCTO ∈ i.entities := by simpa using hpro
    simp [execute_action, execute_action_body, pyGetEntity, hact, hcli', hpro',
      htr, Bind.bind, Except.bind]
  · intro crud d i hcov
    unfold dispatcherCovers at hcov
    cases hact : i.action <;> rw [hact] at hcov <;> simp at hcov <;>
      first
        | (obtain ⟨h1, h2, h3, h4⟩ := hcov
           simp [execute_action, execute_action_body, hact, h1, h2, h3, h4])
        | (obtain ⟨h1, h2⟩ := hcov
           simp [execute_action, execute_action_body, hact, h1, h2])
        | simp [execute_action, execute_action_body, hact]
  · intro crud d i m
    unfold execute_action
    cases hb : execute_action_body crud i d with
    | ok r => simp
    | error e =>
      cases e with
      | valueError m2 => simp
      | otherError m2 => simp
  · intro crud d i m hb
    unfold execute_action
    rw [hb]

/-- Witness for C6: update-customer without id yields the validation
payload; the uncovered `procesar_venta` action yields the
not-implemented payload. -/
theorem dispatcher_error_policy_witness :
    execute_action emptyCrud updateClienteIntent (some [("cliente", [])]) =
      .ok (.errorPayload "Error de datos: Se requiere \x27id\x27 para actualizar cliente.") ∧
    execute_action emptyCrud
        ⟨.VENTA, [.VENTA, .CLIENTE, .PRODUCTO], .PROCESAR_VENTA, [], [], ""⟩
        (some []) =
      .ok (.errorPayload "Acción \x27procesar_venta\x27 no implementada.") :=
  ⟨dispatcher_error_policy.1 emptyCrud [("cliente", [])] updateClienteIntent
      rfl (by decide) (by decide),
   dispatcher_error_policy.2.2.2.2.1 emptyCrud (some [])
      ⟨.VENTA, [.VENTA, .CLIENTE, .PRODUCTO], .PROCESAR_VENTA, [], [], ""⟩
      (by decide)⟩

/-- Counterexample to C3 as stated: saving a state whose serialized
triple (`consulta`/`listar` over entity set {cliente, producto})
matches no catalog entry and loading it back yields the RAW serialized
dict in the pending-action field, not `null`: `load_session` keeps the
raw data when reconstruction fails (line 168). -/
theorem session_raw_kept_counterexample :
    reconstruct_intention rawTripleFx = none ∧
    (saveThenLoad (fun _ => none) "user123" ⟨.raw rawTripleFx, none, none⟩).map
        (fun l => l.pending_action) = some (.raw rawTripleFx) ∧
    (saveThenLoad (fun _ => none) "user123" ⟨.raw rawTripleFx, none, none⟩).map
        (fun l => l.pending_action) ≠ some .absent := by decide

/-- C3 amended: for every store, non-blank session id and state,
`load_session` after `save_session` returns a pending action equal to
the catalog entry with the same (type, action, entity-set) triple
whenever the saved pending action is a catalog intention; and whenever
the serialized triple matches no catalog entry, the load returns the
raw serialized triple in the pending-action field (not `null`).  In
both cases `load_session` is a total function — it never raises. -/
theorem session_roundtrip_policy (store : Store) (sid : String)
    (st : SessionState) (hsid : ¬ pyStripStr sid = "") :
    (∀ p, p ∈ INTENTIONS → st.pending_action = .intent p.2 →
       saveThenLoad store sid st =
         some ⟨.intent p.2, st.pending_data, st.current_purpose⟩) ∧
    (∀ d, st.pending_action = .raw d → reconstruct_intention d = none →
       saveThenLoad store sid st =
         some ⟨.raw d, st.pending_data, st.current_purpose⟩) := by
  constructor
  · intro p hp hpa
    unfold saveThenLoad save_session
    rw [if_neg hsid]
    dsimp [Except.toOption, Option.map]
    unfold load_session
    rw [if_neg hsid]
    dsimp only
    rw [if_pos rfl, hpa]
    dsimp [serializePending]
    rw [catalog_reconstruct_roundtrip p hp]
  · intro d hpa hrec
    unfold saveThenLoad save_session
    rw [if_neg hsid]
    dsimp [Except.toOption, Option.map]
    unfold load_session
    rw [if_neg hsid]
    dsimp only
    rw [if_pos rfl, hpa]
    dsimp [serializePending]
    rw [hrec]

/-- Witness for C3 amended: round trip of the `listar_clientes`
catalog entry, and of a non-catalog raw triple. -/
theorem session_roundtrip_policy_witness :
    saveThenLoad (fun _ => none) "user123"
        ⟨.intent listarClientesIntent, some [("cliente", [])], some "Realizar listar en cliente"⟩ =
      some ⟨.intent listarClientesIntent, some [("cliente", [])],
            some "Realizar listar en cliente"⟩ ∧
    saveThenLoad (fun _ => none) "user123" ⟨.raw rawTripleFx, some [], none⟩ =
      some ⟨.raw rawTripleFx, some [], none⟩ :=
  ⟨(session_roundtrip_policy (fun _ => none) "user123"
      ⟨.intent listarClientesIntent, some [("cliente", [])], some "Realizar listar en cliente"⟩
      (by decide)).1 ("listar_clientes", listarClientesIntent) (by decide) rfl,
   (session_roundtrip_policy (fun _ => none) "user123"
      ⟨.raw rawTripleFx, some [], none⟩ (by decide)).2 rawTripleFx rfl (by decide)⟩

end Agent2
